import Mathlib

/-!
Shallow embedding of `diffupy/validate_inputs.py`: the three input
validators `_validate_scores`, `_validate_graph` and `_validate_K` of the
DiffuPath repository, together with the fragments of their collaborators
(the `Matrix` abstraction of `diffupy/matrix.py` and the helper
`get_label_list_graph` of `diffupy/miscellaneous.py`, which are not part of
the sources at hand and are therefore modelled from the spec).

Python values that can appear as a matrix element (a numpy cell observed by
the iteration protocol) are embedded as `Val`; labels as `Label`.  Raising
an exception is embedded as returning `Except.error`; the two exception
classes that occur (`ValueError` and `Warning`) are the two constructors of
`PyErr`.  Several boolean tests in the source are constant under Python
semantics (operator precedence, `is` against a fresh literal, `any(...)`
returning a `bool`); each such test is embedded by its own definition whose
doc comment quotes the source expression and explains the constant value.
-/

namespace DiffuPy

/-- A Python value appearing as an element of a numpy-backed matrix:
a finite float or an int (`num`), the floating not-a-number value (`nan`),
Python `None` (`pyNone`), or a string such as the sentinel "NA" (`str`).
Rationals stand for the finite floats/ints that occur. -/
inductive Val where
  | num (q : ℚ)
  | nan
  | pyNone
  | str (s : String)
  deriving DecidableEq, Repr

/-- A row or column label: a string, or Python `None` for an absent label. -/
inductive Label where
  | str (s : String)
  | pyNone
  deriving DecidableEq, Repr

/-- The two exception classes raised by `validate_inputs.py`:
`ValueError` for fatal violations and `Warning` (raised, hence also
aborting) for the directed-graph and negative-weight conditions. -/
inductive PyErr where
  | valueError (msg : String)
  | warning (msg : String)
  deriving DecidableEq, Repr

/-- Python `isinstance(x, float) or isinstance(x, int)` on a matrix element.
The floating NaN value IS a float, so `isinstance(nan, float)` is true. -/
def Val.isNum : Val → Bool
  | .num _ => true
  | .nan => true
  | _ => false

/-- Finite numeric payload of a `Val` (0 for the non-`num` cases, which the
places using it never reach). -/
def Val.toQ : Val → ℚ
  | .num q => q
  | _ => 0

/-- Python `x in ['Nan', None]` for a matrix element, membership via `==`:
true exactly for the string "Nan" and for `None`.  The floating NaN value
compares unequal to both, so it is NOT caught by this test. -/
def Val.inNanNone : Val → Bool
  | .str s => s = "Nan"
  | .pyNone => true
  | _ => false

/-- Python `x == 0` on a matrix element: true only for the number 0
(`nan == 0` is false). -/
def Val.eqZero : Val → Bool
  | .num q => q = 0
  | _ => false

/-- Python `label in ['Nan', None]` for a label. -/
def Label.missing : Label → Bool
  | .str s => s = "Nan"
  | .pyNone => true

/-- Python `str(label)`. -/
def Label.toStr : Label → String
  | .str s => s
  | .pyNone => "None"

/-- Python truthiness of a label (`None` and the empty string are falsy). -/
def Label.truthy : Label → Bool
  | .str s => !s.isEmpty
  | .pyNone => false

/-- The labeled-matrix abstraction. Modelled from the spec: `Matrix`
(`diffupy/matrix.py`, not under the sources at hand) is a 2D numeric
container (`mat`, row-major) with ordered row and column label sequences
and a dtype; the spec's consumed interface reports `row_labels`,
`col_labels` and an iteration yielding (value, column_label, row_label)
triples covering every cell exactly once. -/
structure Matrix where
  mat : List (List Val)
  rows_labels : List Label
  cols_labels : List Label
  dtype : String
  deriving DecidableEq, Repr

/-- Number of rows, `mat.shape[0]`. -/
def Matrix.nRows (m : Matrix) : Nat := m.mat.length

/-- Number of columns, `mat.shape[1]` (numpy arrays are rectangular, so the
first row's length is the width). -/
def Matrix.nCols (m : Matrix) : Nat := (m.mat.headD []).length

/-- Well-formedness from the spec's data model: label sequence lengths
match the respective dimensions and the data is rectangular. -/
def Matrix.wf (m : Matrix) : Prop :=
  m.mat.length = m.rows_labels.length ∧
  ∀ row ∈ m.mat, row.length = m.cols_labels.length

instance (m : Matrix) : Decidable m.wf := by
  unfold Matrix.wf; infer_instance

/-- Modelled from the spec: the iteration capability of `Matrix` yields
(value, column_label, row_label) triples covering every cell exactly once,
in row-major order. -/
def Matrix.triples (m : Matrix) : List (Val × Label × Label) :=
  (m.mat.zip m.rows_labels).flatMap fun p =>
    (p.1.zip m.cols_labels).map fun q => (q.1, q.2, p.2)

/-- Python truthiness of the non-empty string literal `'float'`: true. -/
def strFloatTruthy : Bool := true

/-- Python `needle in hay` on strings: substring containment. -/
def pyStrContains (needle hay : String) : Bool :=
  (List.range (hay.data.length + 1)).any fun i =>
    decide ((hay.data.drop i).take needle.data.length = needle.data)

/-- Source: `not 'float' and 'int' in str(mat.dtype)` (both in
`_validate_scores` and `_validate_K`).  Python precedence parses this as
`(not 'float') and ('int' in str(dtype))`; `not 'float'` is `False`
because the non-empty string `'float'` is truthy, so the whole test is
constantly false and the dtype check can never fire. -/
def dtypeCheckFires (dtype : String) : Bool :=
  (!strFloatTruthy) && pyStrContains "int" dtype

/-- Source: `score is ['NA', 'Nan', 'nan']` in `_validate_scores`.  `is`
tests object identity against a list freshly constructed at the test, so
the result is constantly false whatever `score` is. -/
def scoreIsNaListLiteral (_score : Val) : Bool := false

/-- Source: `any(xs) is None` (node names and edge weights in
`_validate_graph`).  `any` returns a `bool`, and a `bool` is never the
object `None`, so the test is constantly false. -/
def pyBoolIsNone (_b : Bool) : Bool := false

/-- Source: `any(xs) < 0` in `_validate_graph`.  `any` returns a `bool`,
which as an int is 0 or 1, and neither is `< 0`. -/
def pyBoolLtZero (b : Bool) : Bool :=
  decide ((if b then (1 : Int) else 0) < 0)

/-- One column of the row-major data, as numpy's axis-0 reduction sees it:
the j-th element of every row. -/
def colAt (mat : List (List Val)) (j : Nat) : List Val :=
  mat.filterMap fun row => row[j]?

/-- Population variance (numpy's default, ddof = 0) of a list of rationals. -/
def variance (xs : List ℚ) : ℚ :=
  ((xs.map fun x => (x - xs.sum / xs.length) ^ 2).sum) / xs.length

/-- Result of `np.std` over one column, as observed by the validator.
`np.std xs` is NaN when the column is empty or contains a NaN, and
otherwise is the square root of the population variance.  The validator
only ever tests the standard deviation for membership in `['Nan', None]`
and for equality with 0, and `sqrt v = 0 ↔ v = 0` while `sqrt NaN = NaN`,
so the variance represents the standard deviation faithfully for every
observation made of it; we therefore carry the variance.  (A column
holding a non-float object would make `np.std` raise; that point is
unreachable through the validators, whose element loop runs first and
rejects any non-float element, so the value given to it here is
immaterial.) -/
def colStd (col : List Val) : Val :=
  if col.isEmpty then .nan
  else if col.any (· == Val.nan) then .nan
  else if col.all Val.isNum then .num (variance (col.map Val.toQ))
  else .nan

/-- The vector `np.std(scores.mat, axis=0)`: one entry per column of the
backing array. -/
def stdRow (s : Matrix) : List Val :=
  (List.range s.nCols).map fun j => colStd (colAt s.mat j)

/-- Source: `Matrix(np.std(scores.mat, axis=0), ['sd'], scores.cols_labels)`
in `_validate_scores`; a 1-row matrix whose single row label is 'sd' and
whose column labels are those of the input. -/
def stdMat (s : Matrix) : Matrix :=
  { mat := [stdRow s]
    rows_labels := [Label.str "sd"]
    cols_labels := s.cols_labels
    dtype := "float64" }

/-- A sequence of embedded checks run against a read-only object: each
check looks at the object and either raises or lets execution continue;
the object each check hands on is returned alongside the outcome, so that
mutation, were any check to perform it, would be visible in the second
component. -/
def runChecks {σ : Type} : List (σ → Option PyErr × σ) → σ → Except PyErr Unit × σ
  | [], s => (.ok (), s)
  | c :: cs, s =>
    match c s with
    | (some e, s') => (.error e, s')
    | (none, s') => runChecks cs s'

/-- Body of the per-element loop of `_validate_scores` (source lines 32-45):
`score is None` → "cannot contain None"; `score is ['NA','Nan','nan']`
(constantly false) → "cannot contain NA values"; not a float and not an
int → "not numeric"; then the two label-membership tests. -/
def scoreElemCheck (t : Val × Label × Label) : Option PyErr :=
  let score := t.1
  let col_label := t.2.1
  let row_label := t.2.2
  if score = .pyNone then
    some (.valueError "Scores input cannot contain None.")
  else if scoreIsNaListLiteral score then
    some (.valueError "Scores input cannot contain NA values.")
  else if !score.isNum then
    some (.valueError "The scores in background are not numeric.")
  else if col_label.missing then
    some (.valueError "The scores in background must have row names according to the scored nodes.")
  else if row_label.missing then
    some (.valueError "The scores in background must have col names to differentiate score sets.")
  else none

/-- Body of the loop over the standard-deviation matrix in
`_validate_scores` (source lines 49-53): `sd in ['Nan', None]` → NA
message naming the column; `sd == 0` → zero message naming the column. -/
def stdElemCheck (t : Val × Label × Label) : Option PyErr :=
  let sd := t.1
  let col_label := t.2.1
  if sd.inNanNone then
    some (.valueError ("Standard deviation in background is NA in column:" ++ col_label.toStr))
  else if sd.eqZero then
    some (.valueError ("Standard deviation in background is 0 in column:" ++ col_label.toStr))
  else none

/-- Source: `if not scores.cols_labels: raise ValueError(...)` — an empty
label list is falsy. -/
def scoresColsLabelsCheck (s : Matrix) : Option PyErr × Matrix :=
  (if s.cols_labels.isEmpty then
    some (.valueError "Scores must be a named list but supplied list contains no names.")
   else none, s)

/-- Source: `if not scores.rows_labels: raise ValueError(...)`. -/
def scoresRowsLabelsCheck (s : Matrix) : Option PyErr × Matrix :=
  (if s.rows_labels.isEmpty then
    some (.valueError "Scores must be a named list but supplied list contains no names.")
   else none, s)

/-- Source: the (constantly false) dtype test of `_validate_scores`. -/
def scoresDtypeCheck (s : Matrix) : Option PyErr × Matrix :=
  (if dtypeCheckFires s.dtype then
    some (.valueError "The scores in background are not numeric.")
   else none, s)

/-- The per-element loop of `_validate_scores`, raising at the first
violating cell in iteration order. -/
def scoresElemLoop (s : Matrix) : Option PyErr × Matrix :=
  (s.triples.findSome? scoreElemCheck, s)

/-- The standard-deviation loop of `_validate_scores`: build the 1-row
std matrix and raise at its first violating entry. -/
def scoresStdLoop (s : Matrix) : Option PyErr × Matrix :=
  ((stdMat s).triples.findSome? stdElemCheck, s)

/-- The checks of `_validate_scores`, in source order, each as a read-only
step. -/
def scoresChecks : List (Matrix → Option PyErr × Matrix) :=
  [scoresColsLabelsCheck, scoresRowsLabelsCheck, scoresDtypeCheck,
   scoresElemLoop, scoresStdLoop]

/-- Embedding of `_validate_scores`: run the checks; the Python function
returns `None` on success and raises on the first violation. -/
def validate_scores (s : Matrix) : Except PyErr Unit :=
  (runChecks scoresChecks s).1

/-- An edge of a graph: its endpoints and its optional `weight`
attribute. -/
structure GEdge where
  src : String
  dst : String
  weight : Option Val
  deriving DecidableEq, Repr

/-- The graph abstraction consumed by `_validate_graph`: a node/edge
structure with a directedness query, where each node carries a name
attribute.  Nodes are represented by their name attribute, which is all
`_validate_graph` reads of them (through `get_label_list_graph`). -/
structure Graph where
  directed : Bool
  nodes : List Label
  edges : List GEdge
  deriving DecidableEq, Repr

/-- Modelled from the spec: `get_label_list_graph(graph, 'name')`
(`diffupy/miscellaneous.py`, not under the sources at hand) returns the
ordered sequence of the given attribute's values, one per node, in a
stable node order. -/
def get_label_list_graph (g : Graph) : List Label :=
  g.nodes

/-- Source: `nx.get_edge_attributes(graph, 'weight')` — the dictionary
from edge to weight, holding exactly the edges that HAVE a weight
attribute (an edge lacking the attribute has no entry at all). -/
def edgeWeightsDict (g : Graph) : List (GEdge × Val) :=
  g.edges.filterMap fun e => (e.weight).map fun w => (e, w)

/-- Source: `graph in [None, 'NA', 'Nan']`.  A graph object compares
unequal to `None` and to both strings, so for an actual graph the test is
constantly false (the raise fires only when the caller passes one of
those three values instead of a graph, which the type of this embedding
rules out). -/
def graphInNoneNa (_g : Graph) : Bool := false

/-- Source: `not isinstance(graph, nx.Graph)` — constantly false for an
actual graph object, which is what this embedding's type admits. -/
def graphNotIsinstance (_g : Graph) : Bool := false

/-- Source: `nodes_names in [None, 'NA', 'Nan']`.  A Python list compares
unequal to `None` and to any string, so the test is constantly false. -/
def namesInNoneNa (_names : List Label) : Bool := false

/-- Python `any(...)` over a list of labels (truthiness of each label). -/
def pyAnyLabels (names : List Label) : Bool :=
  names.any Label.truthy

/-- Python `any(...)` over a dictionary, which iterates its KEYS.  The
keys of the edge-weights dictionary are edge tuples, and a non-empty
tuple is always truthy. -/
def pyAnyDictKeys (d : List (GEdge × Val)) : Bool :=
  d.any fun _ => true

/-- Source: `if graph in [None, 'NA', 'Nan']: raise ValueError(...)`. -/
def graphNoneCheck (g : Graph) : Option PyErr × Graph :=
  (if graphInNoneNa g then some (.valueError "'graph' missing") else none, g)

/-- Source: `if not isinstance(graph, nx.Graph): raise ValueError(...)`. -/
def graphIsinstanceCheck (g : Graph) : Option PyErr × Graph :=
  (if graphNotIsinstance g then
    some (.valueError "'graph' must be an NetworkX graph object")
   else none, g)

/-- Source: `nodes_names = get_label_list_graph(graph, 'name'); if
nodes_names in [None, 'NA', 'Nan']: raise ValueError(...)`. -/
def graphNamesAbsentCheck (g : Graph) : Option PyErr × Graph :=
  (if namesInNoneNa (get_label_list_graph g) then
    some (.valueError "'graph' must have node names.")
   else none, g)

/-- Source: `if any(nodes_names) is None: raise ValueError(...)` —
constantly false, since `any` returns a `bool`, never `None`. -/
def graphNamesNaCheck (g : Graph) : Option PyErr × Graph :=
  (if pyBoolIsNone (pyAnyLabels (get_label_list_graph g)) then
    some (.valueError "'graph' cannot have NA as node names")
   else none, g)

/-- Source: `if len(np.unique(nodes_names)) != len(nodes_names)` —
`np.unique` keeps one copy of each distinct name, so the test fires
exactly when the names contain a duplicate. -/
def graphUniqueNamesCheck (g : Graph) : Option PyErr × Graph :=
  (if (get_label_list_graph g).dedup.length ≠ (get_label_list_graph g).length then
    some (.valueError "'graph' has non-unique names! Please check that the names are unique.")
   else none, g)

/-- Source: `if nx.is_directed(graph): raise Warning(...)`.  Note that
this RAISES the `Warning`, which aborts the call like any exception. -/
def graphDirectedCheck (g : Graph) : Option PyErr × Graph :=
  (if g.directed then
    some (.warning "graph' should be an undirected NetworkX graph object.")
   else none, g)

/-- Source lines 78-83: `edge_weights = nx.get_edge_attributes(graph,
'weight'); if edge_weights: if any(edge_weights) is None: raise
ValueError(...); if any(edge_weights) < 0: raise Warning(...)`.  Both
inner tests are constantly false: `any` over the dictionary's keys (edge
tuples, all truthy) returns a `bool`, which is never `None` and, as the
int 0 or 1, is never `< 0`. -/
def graphWeightsCheck (g : Graph) : Option PyErr × Graph :=
  (if !(edgeWeightsDict g).isEmpty then
    if pyBoolIsNone (pyAnyDictKeys (edgeWeightsDict g)) then
      some (.valueError "'graph' cannot contain NA edge weights, all must have weights.")
    else if pyBoolLtZero (pyAnyDictKeys (edgeWeightsDict g)) then
      some (.warning "'graph' should not contain negative edge weights.")
    else none
   else none, g)

/-- The checks of `_validate_graph`, in source order. -/
def graphChecks : List (Graph → Option PyErr × Graph) :=
  [graphNoneCheck, graphIsinstanceCheck, graphNamesAbsentCheck,
   graphNamesNaCheck, graphUniqueNamesCheck, graphDirectedCheck,
   graphWeightsCheck]

/-- Embedding of `_validate_graph`. -/
def validate_graph (g : Graph) : Except PyErr Unit :=
  (runChecks graphChecks g).1

/-- Source: `if not isinstance(k, Matrix): raise ValueError(...)` —
constantly false for an actual `Matrix`, which is what this embedding's
type admits. -/
def kNotIsinstance (_k : Matrix) : Bool := false

/-- Source: the isinstance check of `_validate_K`. -/
def kIsinstanceCheck (k : Matrix) : Option PyErr × Matrix :=
  (if kNotIsinstance k then some (.valueError "'k' must be a matrix") else none, k)

/-- Source: the (constantly false) dtype test of `_validate_K`. -/
def kDtypeCheck (k : Matrix) : Option PyErr × Matrix :=
  (if dtypeCheckFires k.dtype then
    some (.valueError "'k' must be a numeric matrix, but it is not numeric.")
   else none, k)

/-- Source: `n_rows = k.mat.shape[0]; n_cols = k.mat.shape[1]; if n_rows
!= n_cols: raise ValueError("'k' must be a square matrix, but it has " +
str(n_rows) + " rows and " + str(n_cols) + " columns.")`. -/
def kSquareCheck (k : Matrix) : Option PyErr × Matrix :=
  (if k.nRows ≠ k.nCols then
    some (.valueError ("'k' must be a square matrix, but it has " ++ toString k.nRows
      ++ " rows and " ++ toString k.nCols ++ " columns."))
   else none, k)

/-- Source: `if k.cols_labels == []: raise ValueError("'k' kernel must
have row names.")`. -/
def kColsLabelsCheck (k : Matrix) : Option PyErr × Matrix :=
  (if k.cols_labels = [] then
    some (.valueError "'k' kernel must have row names.")
   else none, k)

/-- Source: `if k.rows_labels == []: raise ValueError("'k' kernel must
have column names.")`. -/
def kRowsLabelsCheck (k : Matrix) : Option PyErr × Matrix :=
  (if k.rows_labels = [] then
    some (.valueError "'k' kernel must have column names.")
   else none, k)

/-- Source: `if k.rows_labels != k.cols_labels: raise ValueError("'k'
rownames and colnames must coincide.")`. -/
def kLabelsCoincideCheck (k : Matrix) : Option PyErr × Matrix :=
  (if k.rows_labels ≠ k.cols_labels then
    some (.valueError "'k' rownames and colnames must coincide.")
   else none, k)

/-- Body of the per-element loop of `_validate_K` (source lines 112-120). -/
def kElemCheck (t : Val × Label × Label) : Option PyErr :=
  let score := t.1
  let col_label := t.2.1
  let row_label := t.2.2
  if !score.isNum then
    some (.valueError "'k' must be a numeric matrix, but it is not numeric.")
  else if score.inNanNone then
    some (.valueError "Scores input cannot contain NA. But background .")
  else if col_label.missing || row_label.missing then
    some (.valueError "'k' dimnames cannot be NA.")
  else none

/-- The per-element loop of `_validate_K`. -/
def kElemLoop (k : Matrix) : Option PyErr × Matrix :=
  (k.triples.findSome? kElemCheck, k)

/-- Source: `if len(np.unique(k.rows_labels)) != len(k.rows_labels)`. -/
def kRowsUniqueCheck (k : Matrix) : Option PyErr × Matrix :=
  (if k.rows_labels.dedup.length ≠ k.rows_labels.length then
    some (.valueError "'k' cannot contain duplicated row names.")
   else none, k)

/-- Source: `if len(np.unique(k.cols_labels)) != len(k.cols_labels)`. -/
def kColsUniqueCheck (k : Matrix) : Option PyErr × Matrix :=
  (if k.cols_labels.dedup.length ≠ k.cols_labels.length then
    some (.valueError "'k' cannot contain duplicated column names.")
   else none, k)

/-- The checks of `_validate_K`, in source order. -/
def kChecks : List (Matrix → Option PyErr × Matrix) :=
  [kIsinstanceCheck, kDtypeCheck, kSquareCheck, kColsLabelsCheck,
   kRowsLabelsCheck, kLabelsCoincideCheck, kElemLoop,
   kRowsUniqueCheck, kColsUniqueCheck]

/-- Embedding of `_validate_K`. -/
def validate_K (k : Matrix) : Except PyErr Unit :=
  (runChecks kChecks k).1

end DiffuPy

namespace DiffuPy

/-! Infrastructure lemmas. -/

lemma runChecks_cons {σ : Type} (c : σ → Option PyErr × σ)
    (cs : List (σ → Option PyErr × σ)) (s : σ) :
    runChecks (c :: cs) s =
      match c s with
      | (some e, s') => (.error e, s')
      | (none, s') => runChecks cs s' := rfl

lemma runChecks_snd {σ : Type} (cs : List (σ → Option PyErr × σ))
    (h : ∀ c ∈ cs, ∀ s, (c s).2 = s) : ∀ s, (runChecks cs s).2 = s := by
  induction cs with
  | nil => intro s; rfl
  | cons c cs ih =>
    intro s
    have hc : (c s).2 = s := h c (by simp) s
    rcases hcs : c s with ⟨o, s'⟩
    have hs' : s' = s := by rw [hcs] at hc; exact hc
    rcases o with _ | e
    · rw [runChecks_cons, hcs, hs']
      exact ih (fun c' hc' s => h c' (by simp [hc']) s) s
    · rw [runChecks_cons, hcs]
      exact hs'

lemma runChecks_cons_none {σ : Type} {c : σ → Option PyErr × σ}
    {cs : List (σ → Option PyErr × σ)} {s : σ} (h : c s = (none, s)) :
    runChecks (c :: cs) s = runChecks cs s := by
  rw [runChecks_cons, h]

lemma runChecks_cons_some {σ : Type} {c : σ → Option PyErr × σ}
    {cs : List (σ → Option PyErr × σ)} {s s' : σ} {e : PyErr}
    (h : c s = (some e, s')) :
    runChecks (c :: cs) s = (.error e, s') := by
  rw [runChecks_cons, h]

lemma dtypeCheckFires_false (d : String) : dtypeCheckFires d = false := by
  simp [dtypeCheckFires, strFloatTruthy]

/-- Unfolding of `validate_scores` with the constantly-false dtype test
removed. -/
lemma validate_scores_eq (s : Matrix) :
    validate_scores s =
      if s.cols_labels.isEmpty then
        .error (.valueError "Scores must be a named list but supplied list contains no names.")
      else if s.rows_labels.isEmpty then
        .error (.valueError "Scores must be a named list but supplied list contains no names.")
      else
        match s.triples.findSome? scoreElemCheck with
        | some e => .error e
        | none =>
          match (stdMat s).triples.findSome? stdElemCheck with
          | some e => .error e
          | none => .ok () := by
  unfold validate_scores scoresChecks
  by_cases h1 : s.cols_labels.isEmpty = true
  · rw [runChecks_cons_some (show scoresColsLabelsCheck s =
      (some (.valueError "Scores must be a named list but supplied list contains no names."), s) by
      simp [scoresColsLabelsCheck, h1]), if_pos h1]
  rw [runChecks_cons_none (by simp [scoresColsLabelsCheck, h1]), if_neg h1]
  by_cases h2 : s.rows_labels.isEmpty = true
  · rw [runChecks_cons_some (show scoresRowsLabelsCheck s =
      (some (.valueError "Scores must be a named list but supplied list contains no names."), s) by
      simp [scoresRowsLabelsCheck, h2]), if_pos h2]
  rw [runChecks_cons_none (by simp [scoresRowsLabelsCheck, h2]), if_neg h2]
  rw [runChecks_cons_none (by simp [scoresDtypeCheck, dtypeCheckFires_false])]
  rcases hE : s.triples.findSome? scoreElemCheck with _ | e
  · rw [runChecks_cons_none (by simp [scoresElemLoop, hE])]
    rcases hS : (stdMat s).triples.findSome? stdElemCheck with _ | e
    · rw [runChecks_cons_none (by simp [scoresStdLoop, hS])]
      rfl
    · rw [runChecks_cons_some (show scoresStdLoop s = (some e, s) by
        simp [scoresStdLoop, hS])]
  · rw [runChecks_cons_some (show scoresElemLoop s = (some e, s) by
      simp [scoresElemLoop, hE])]

/-- Unfolding of `validate_graph`: only the uniqueness check, the directed
check and (vacuously) the weight checks can fire. -/
lemma validate_graph_eq (g : Graph) :
    validate_graph g =
      if (get_label_list_graph g).dedup.length ≠ (get_label_list_graph g).length then
        .error (.valueError "'graph' has non-unique names! Please check that the names are unique.")
      else if g.directed then
        .error (.warning "graph' should be an undirected NetworkX graph object.")
      else .ok () := by
  unfold validate_graph graphChecks
  rw [runChecks_cons_none (by simp [graphNoneCheck, graphInNoneNa])]
  rw [runChecks_cons_none (by simp [graphIsinstanceCheck, graphNotIsinstance])]
  rw [runChecks_cons_none (by simp [graphNamesAbsentCheck, namesInNoneNa])]
  rw [runChecks_cons_none (by simp [graphNamesNaCheck, pyBoolIsNone])]
  by_cases h5 : (get_label_list_graph g).dedup.length = (get_label_list_graph g).length
  · rw [runChecks_cons_none (by simp [graphUniqueNamesCheck, h5]), if_neg (by simp [h5])]
    by_cases h6 : g.directed = true
    · rw [runChecks_cons_some (show graphDirectedCheck g =
        (some (.warning "graph' should be an undirected NetworkX graph object."), g) by
        simp [graphDirectedCheck, h6]), if_pos h6]
    rw [runChecks_cons_none (by simp [graphDirectedCheck, h6]), if_neg h6]
    rw [runChecks_cons_none (by
      rcases h7 : (edgeWeightsDict g).isEmpty
      · simp [graphWeightsCheck, pyBoolIsNone, pyBoolLtZero, h7]
        split <;> norm_num
      · simp [graphWeightsCheck, pyBoolIsNone, pyBoolLtZero, h7])]
    rfl
  · rw [runChecks_cons_some (show graphUniqueNamesCheck g =
      (some (.valueError "'graph' has non-unique names! Please check that the names are unique."), g) by
      simp [graphUniqueNamesCheck, h5]), if_pos (by simp [h5])]

/-- Unfolding of `validate_K` with the constantly-false isinstance and
dtype tests removed. -/
lemma validate_K_eq (k : Matrix) :
    validate_K k =
      if k.nRows ≠ k.nCols then
        .error (.valueError ("'k' must be a square matrix, but it has " ++ toString k.nRows
          ++ " rows and " ++ toString k.nCols ++ " columns."))
      else if k.cols_labels = [] then
        .error (.valueError "'k' kernel must have row names.")
      else if k.rows_labels = [] then
        .error (.valueError "'k' kernel must have column names.")
      else if k.rows_labels ≠ k.cols_labels then
        .error (.valueError "'k' rownames and colnames must coincide.")
      else
        match k.triples.findSome? kElemCheck with
        | some e => .error e
        | none =>
          if k.rows_labels.dedup.length ≠ k.rows_labels.length then
            .error (.valueError "'k' cannot contain duplicated row names.")
          else if k.cols_labels.dedup.length ≠ k.cols_labels.length then
            .error (.valueError "'k' cannot contain duplicated column names.")
          else .ok () := by
  unfold validate_K kChecks
  rw [runChecks_cons_none (by simp [kIsinstanceCheck, kNotIsinstance])]
  rw [runChecks_cons_none (by simp [kDtypeCheck, dtypeCheckFires_false])]
  by_cases h3 : k.nRows = k.nCols
  · rw [runChecks_cons_none (by simp [kSquareCheck, h3]), if_neg (by simp [h3])]
    by_cases h4 : k.cols_labels = []
    · rw [runChecks_cons_some (show kColsLabelsCheck k =
        (some (.valueError "'k' kernel must have row names."), k) by
        simp [kColsLabelsCheck, h4]), if_pos h4]
    rw [runChecks_cons_none (by simp [kColsLabelsCheck, h4]), if_neg h4]
    by_cases h5 : k.rows_labels = []
    · rw [runChecks_cons_some (show kRowsLabelsCheck k =
        (some (.valueError "'k' kernel must have column names."), k) by
        simp [kRowsLabelsCheck, h5]), if_pos h5]
    rw [runChecks_cons_none (by simp [kRowsLabelsCheck, h5]), if_neg h5]
    by_cases h6 : k.rows_labels = k.cols_labels
    · rw [runChecks_cons_none (by simp [kLabelsCoincideCheck, h6]), if_neg (by simp [h6])]
      rcases hE : k.triples.findSome? kElemCheck with _ | e
      · rw [runChecks_cons_none (by simp [kElemLoop, hE])]
        by_cases h7 : k.rows_labels.dedup.length = k.rows_labels.length
        · rw [runChecks_cons_none (by simp [kRowsUniqueCheck, h7]), if_neg (by simp [h7])]
          by_cases h8 : k.cols_labels.dedup.length = k.cols_labels.length
          · rw [runChecks_cons_none (by simp [kColsUniqueCheck, h8]), if_neg (by simp [h8])]
            rfl
          · rw [runChecks_cons_some (show kColsUniqueCheck k =
              (some (.valueError "'k' cannot contain duplicated column names."), k) by
              simp [kColsUniqueCheck, h8]), if_pos (by simp [h8])]
        · rw [runChecks_cons_some (show kRowsUniqueCheck k =
            (some (.valueError "'k' cannot contain duplicated row names."), k) by
            simp [kRowsUniqueCheck, h7]), if_pos (by simp [h7])]
      · rw [runChecks_cons_some (show kElemLoop k = (some e, k) by
          simp [kElemLoop, hE])]
    · rw [runChecks_cons_some (show kLabelsCoincideCheck k =
        (some (.valueError "'k' rownames and colnames must coincide."), k) by
        simp [kLabelsCoincideCheck, h6]), if_pos (by simp [h6])]
  · rw [runChecks_cons_some (show kSquareCheck k =
      (some (.valueError ("'k' must be a square matrix, but it has " ++ toString k.nRows
        ++ " rows and " ++ toString k.nCols ++ " columns.")), k) by
      simp [kSquareCheck, h3]), if_pos (by simp [h3])]

/-! Helper lemmas about the element loops and the standard-deviation row. -/

lemma mem_triples {m : Matrix} {t : Val × Label × Label} (ht : t ∈ m.triples) :
    (∃ row ∈ m.mat, t.1 ∈ row) ∧ t.2.1 ∈ m.cols_labels ∧ t.2.2 ∈ m.rows_labels := by
  rcases List.mem_flatMap.mp ht with ⟨p, hp, hmem⟩
  rcases List.mem_map.mp hmem with ⟨q, hq, rfl⟩
  have hp2 := List.of_mem_zip hp
  have hq2 := List.of_mem_zip hq
  exact ⟨⟨p.1, hp2.1, hq2.1⟩, hq2.2, hp2.2⟩

lemma scoreElemCheck_eq_none {t : Val × Label × Label}
    (h1 : t.1.isNum = true) (h2 : t.2.1.missing = false) (h3 : t.2.2.missing = false) :
    scoreElemCheck t = none := by
  obtain ⟨v, cl, rl⟩ := t
  cases v <;> simp_all [scoreElemCheck, Val.isNum, scoreIsNaListLiteral]

lemma elemLoop_none {s : Matrix}
    (hnum : ∀ row ∈ s.mat, ∀ v ∈ row, v.isNum = true)
    (hcl : ∀ l ∈ s.cols_labels, l.missing = false)
    (hrl : ∀ l ∈ s.rows_labels, l.missing = false) :
    s.triples.findSome? scoreElemCheck = none := by
  rw [List.findSome?_eq_none_iff]
  intro t ht
  obtain ⟨⟨row, hrow, hv⟩, hc, hr⟩ := mem_triples ht
  exact scoreElemCheck_eq_none (hnum row hrow _ hv) (hcl _ hc) (hrl _ hr)

lemma stdMat_triples (s : Matrix) :
    (stdMat s).triples =
      ((stdRow s).zip s.cols_labels).map fun q => (q.1, q.2, Label.str "sd") := by
  simp [Matrix.triples, stdMat]

lemma colStd_num_or_nan (col : List Val) :
    (∃ q, colStd col = .num q) ∨ colStd col = .nan := by
  unfold colStd
  split_ifs <;> simp

lemma stdRow_mem {s : Matrix} {v : Val} (hv : v ∈ stdRow s) :
    (∃ q, v = .num q) ∨ v = .nan := by
  rcases List.mem_map.mp hv with ⟨j, _, rfl⟩
  exact colStd_num_or_nan _

lemma stdElemCheck_num (q : ℚ) (cl rl : Label) :
    stdElemCheck (.num q, cl, rl) =
      if q = 0 then
        some (.valueError ("Standard deviation in background is 0 in column:" ++ cl.toStr))
      else none := by
  by_cases h : q = 0 <;> simp [stdElemCheck, Val.inNanNone, Val.eqZero, h]

lemma stdElemCheck_nan (cl rl : Label) : stdElemCheck (.nan, cl, rl) = none := rfl

lemma isEmpty_false_of_ne_nil {α : Type} {l : List α} (h : l ≠ []) :
    l.isEmpty = false := by
  simp [List.isEmpty_iff, h]

lemma variance_nonneg (xs : List ℚ) : 0 ≤ variance xs := by
  unfold variance
  apply div_nonneg _ (by positivity)
  apply List.sum_nonneg
  intro x hx
  rcases List.mem_map.mp hx with ⟨y, _, rfl⟩
  positivity

lemma sum_sq_eq_zero_iff (xs : List ℚ) (m : ℚ) :
    ((xs.map fun x => (x - m) ^ 2).sum = 0) ↔ ∀ x ∈ xs, x = m := by
  induction xs with
  | nil => simp
  | cons a l ih =>
    simp only [List.map_cons, List.sum_cons, List.mem_cons]
    rw [add_eq_zero_iff_of_nonneg (by positivity)
      (List.sum_nonneg fun x hx => by rcases List.mem_map.mp hx with ⟨y, _, rfl⟩; positivity)]
    rw [ih, pow_eq_zero_iff (by norm_num), sub_eq_zero]
    constructor
    · rintro ⟨h1, h2⟩ x (rfl | hx)
      · exact h1
      · exact h2 x hx
    · intro h
      exact ⟨h a (Or.inl rfl), fun x hx => h x (Or.inr hx)⟩

lemma variance_eq_zero_iff {xs : List ℚ} (h : xs ≠ []) :
    variance xs = 0 ↔ ∀ x ∈ xs, x = xs.sum / xs.length := by
  unfold variance
  rw [div_eq_zero_iff]
  have hlen : (xs.length : ℚ) ≠ 0 := by
    simpa using List.length_pos.mpr h |>.ne'
  simp only [hlen, or_false]
  exact sum_sq_eq_zero_iff xs _

lemma variance_singleton (q : ℚ) : variance [q] = 0 := by
  simp [variance]

/-! Claim theorems. -/

/-- C1.  The claim says that for a directed graph passing the earlier
fatal checks, `validate_graph` returns without raising and reports the
advisory on a channel separate from the fatal path.  The code instead
executes `raise Warning(...)`, which aborts the call like any exception:
on a directed two-node graph with present, unique names, the embedded
`validate_graph` produces an error (of the `Warning` class) rather than
returning. -/
theorem validate_graph_directed_raises :
    validate_graph (Graph.mk true [Label.str "A", Label.str "B"] []) =
      .error (.warning "graph' should be an undirected NetworkX graph object.") := by
  rfl

/-- C2.  The claim says `validate_scores` raises when a cell is a
missing-value sentinel or NaN, before the standard deviation is computed.
On the 2 by 1 matrix with cells 1.0 and NaN (labels complete), the
embedded `validate_scores` raises nothing at all: NaN is a float, so the
element loop passes it, and the resulting NaN standard deviation matches
neither `in ['Nan', None]` nor `== 0`, so the call returns successfully. -/
theorem validate_scores_nan_passes :
    validate_scores (Matrix.mk [[Val.num 1], [Val.nan]]
      [Label.str "r1", Label.str "r2"] [Label.str "c1"] "float64") = .ok () := by
  rfl

/-- C3.  The claim says both validators raise on a non-numeric dtype
before any per-element check.  The dtype test `not 'float' and 'int' in
str(dtype)` is constantly false under Python precedence, so it can never
fire: on a matrix of object dtype holding Python floats, `validate_scores`
returns successfully (the per-element isinstance checks also pass), and
likewise `validate_K` on an object-dtype kernel. -/
theorem dtype_check_never_fires :
    (∀ d : String, dtypeCheckFires d = false) ∧
    validate_scores (Matrix.mk [[Val.num 1], [Val.num 2]]
      [Label.str "r1", Label.str "r2"] [Label.str "c1"] "object") = .ok () ∧
    validate_K (Matrix.mk [[Val.num 1]] [Label.str "a"] [Label.str "a"] "object") = .ok () := by
  refine ⟨dtypeCheckFires_false, ?_, by rfl⟩
  norm_num +decide [validate_scores, runChecks, scoresChecks, scoresColsLabelsCheck,
    scoresRowsLabelsCheck, scoresDtypeCheck, scoresElemLoop, scoresStdLoop,
    Matrix.triples, scoreElemCheck, stdElemCheck, stdMat, stdRow, Matrix.nCols,
    colAt, colStd, variance, dtypeCheckFires, strFloatTruthy, Val.isNum,
    Val.toQ, Val.inNanNone, Val.eqZero, Label.missing, scoreIsNaListLiteral,
    List.findSome?_cons, List.range_succ, List.filterMap_cons,
    List.getElem?_cons_zero, List.getElem?_cons_succ, Function.comp]

/-- C4.  The claim says that when some edge carries a weight, a missing
weight on another edge is fatal and a negative weight yields a non-fatal
advisory.  Both inner tests (`any(edge_weights) is None` and
`any(edge_weights) < 0`) are constantly false, so neither can ever fire:
a graph with one weighted and one unweighted edge validates silently, and
so does a graph with a negative edge weight. -/
theorem validate_graph_weight_checks_dead :
    validate_graph (Graph.mk false [Label.str "A", Label.str "B", Label.str "C"]
      [GEdge.mk "A" "B" (some (.num 1)), GEdge.mk "B" "C" none]) = .ok () ∧
    validate_graph (Graph.mk false [Label.str "A", Label.str "B"]
      [GEdge.mk "A" "B" (some (.num (-1)))]) = .ok () := by
  exact ⟨rfl, rfl⟩

/-- C6.  For every kernel matrix whose row count differs from its column
count, `validate_K` raises, and the message is the concatenation shown,
which contains the decimal numerals of both counts. -/
theorem validate_K_nonsquare (k : Matrix) (h : k.nRows ≠ k.nCols) :
    validate_K k =
      .error (.valueError ("'k' must be a square matrix, but it has " ++ toString k.nRows
        ++ " rows and " ++ toString k.nCols ++ " columns.")) := by
  rw [validate_K_eq, if_pos h]

/-- Witness for C6 at a concrete 3 by 4 kernel: the message contains the
literal counts 3 and 4. -/
theorem validate_K_nonsquare_witness :
    (Matrix.mk [[Val.num 1, Val.num 1, Val.num 1, Val.num 1],
      [Val.num 1, Val.num 1, Val.num 1, Val.num 1],
      [Val.num 1, Val.num 1, Val.num 1, Val.num 1]]
      [Label.str "a", Label.str "b", Label.str "c"]
      [Label.str "a", Label.str "b", Label.str "c", Label.str "d"] "float64").nRows ≠
      (Matrix.mk [[Val.num 1, Val.num 1, Val.num 1, Val.num 1],
      [Val.num 1, Val.num 1, Val.num 1, Val.num 1],
      [Val.num 1, Val.num 1, Val.num 1, Val.num 1]]
      [Label.str "a", Label.str "b", Label.str "c"]
      [Label.str "a", Label.str "b", Label.str "c", Label.str "d"] "float64").nCols ∧
    validate_K (Matrix.mk [[Val.num 1, Val.num 1, Val.num 1, Val.num 1],
      [Val.num 1, Val.num 1, Val.num 1, Val.num 1],
      [Val.num 1, Val.num 1, Val.num 1, Val.num 1]]
      [Label.str "a", Label.str "b", Label.str "c"]
      [Label.str "a", Label.str "b", Label.str "c", Label.str "d"] "float64") =
      .error (.valueError "'k' must be a square matrix, but it has 3 rows and 4 columns.") :=
  ⟨by decide, validate_K_nonsquare _ (by decide)⟩

/-- C7.  For every kernel matrix with non-empty row and column label
sequences that differ entry-for-entry, `validate_K` raises (at the square
check when the data is not square, otherwise at the label-coincidence
check). -/
theorem validate_K_label_mismatch (k : Matrix)
    (hr : k.rows_labels ≠ []) (hc : k.cols_labels ≠ [])
    (hne : k.rows_labels ≠ k.cols_labels) :
    ∃ msg, validate_K k = .error (.valueError msg) := by
  rw [validate_K_eq]
  by_cases hsq : k.nRows = k.nCols
  · rw [if_neg (by simp [hsq]), if_neg hc, if_neg hr, if_pos hne]
    exact ⟨_, rfl⟩
  · rw [if_pos hsq]
    exact ⟨_, rfl⟩

/-- Witness for C7 at the spec example: `row_labels = [A,B,C]`,
`col_labels = [A,C,B]` on a square 3 by 3 matrix. -/
theorem validate_K_label_mismatch_witness :
    (Matrix.mk [[Val.num 1, Val.num 2, Val.num 3],
      [Val.num 2, Val.num 1, Val.num 2],
      [Val.num 3, Val.num 2, Val.num 1]]
      [Label.str "A", Label.str "B", Label.str "C"]
      [Label.str "A", Label.str "C", Label.str "B"] "float64").rows_labels ≠ [] ∧
    (Matrix.mk [[Val.num 1, Val.num 2, Val.num 3],
      [Val.num 2, Val.num 1, Val.num 2],
      [Val.num 3, Val.num 2, Val.num 1]]
      [Label.str "A", Label.str "B", Label.str "C"]
      [Label.str "A", Label.str "C", Label.str "B"] "float64").cols_labels ≠ [] ∧
    (Matrix.mk [[Val.num 1, Val.num 2, Val.num 3],
      [Val.num 2, Val.num 1, Val.num 2],
      [Val.num 3, Val.num 2, Val.num 1]]
      [Label.str "A", Label.str "B", Label.str "C"]
      [Label.str "A", Label.str "C", Label.str "B"] "float64").rows_labels ≠
    (Matrix.mk [[Val.num 1, Val.num 2, Val.num 3],
      [Val.num 2, Val.num 1, Val.num 2],
      [Val.num 3, Val.num 2, Val.num 1]]
      [Label.str "A", Label.str "B", Label.str "C"]
      [Label.str "A", Label.str "C", Label.str "B"] "float64").cols_labels ∧
    ∃ msg, validate_K (Matrix.mk [[Val.num 1, Val.num 2, Val.num 3],
      [Val.num 2, Val.num 1, Val.num 2],
      [Val.num 3, Val.num 2, Val.num 1]]
      [Label.str "A", Label.str "B", Label.str "C"]
      [Label.str "A", Label.str "C", Label.str "B"] "float64") = .error (.valueError msg) :=
  ⟨by decide, by decide, by decide,
    validate_K_label_mismatch _ (by decide) (by decide) (by decide)⟩

/-- C9.  None of the three validators mutates its input: running the
check sequence of each validator returns, along with the outcome, the
very object that was passed in, whether the outcome is success or a
raise. -/
theorem validators_read_only :
    (∀ s : Matrix, runChecks scoresChecks s = (validate_scores s, s)) ∧
    (∀ g : Graph, runChecks graphChecks g = (validate_graph g, g)) ∧
    (∀ k : Matrix, runChecks kChecks k = (validate_K k, k)) := by
  refine ⟨fun s => ?_, fun g => ?_, fun k => ?_⟩ <;>
    refine Prod.ext rfl (runChecks_snd _ ?_ _) <;>
    intro c hc x <;>
    fin_cases hc <;>
    rfl

/-- C5.  For every scores matrix that passes the label and per-element
checks, if some entry of the standard-deviation row paired with its
column label is exactly zero, `validate_scores` raises, and the message
names the label of a column whose standard deviation is zero.  (The
standard deviation is carried as the variance; `sqrt v = 0 ↔ v = 0`.) -/
theorem validate_scores_zero_sd (s : Matrix)
    (hc : s.cols_labels ≠ []) (hr : s.rows_labels ≠ [])
    (hnum : ∀ row ∈ s.mat, ∀ v ∈ row, v.isNum = true)
    (hcl : ∀ l ∈ s.cols_labels, l.missing = false)
    (hrl : ∀ l ∈ s.rows_labels, l.missing = false)
    (hzero : ∃ p ∈ (stdRow s).zip s.cols_labels, p.1 = Val.num 0) :
    ∃ cl, (Val.num 0, cl) ∈ (stdRow s).zip s.cols_labels ∧
      validate_scores s =
        .error (.valueError ("Standard deviation in background is 0 in column:" ++ cl.toStr)) := by
  have hfind : (stdMat s).triples.findSome? stdElemCheck =
      ((stdRow s).zip s.cols_labels).findSome?
        (fun p => stdElemCheck (p.1, p.2, Label.str "sd")) := by
    rw [stdMat_triples, List.findSome?_map]
    rfl
  obtain ⟨p0, hp0, hp0v⟩ := hzero
  have hsome : (((stdRow s).zip s.cols_labels).findSome?
      (fun p => stdElemCheck (p.1, p.2, Label.str "sd"))).isSome = true := by
    rw [List.findSome?_isSome_iff]
    refine ⟨p0, hp0, ?_⟩
    show (stdElemCheck (p0.1, p0.2, Label.str "sd")).isSome = true
    rw [hp0v, stdElemCheck_num, if_pos rfl]
    rfl
  obtain ⟨e, he⟩ := Option.isSome_iff_exists.mp hsome
  obtain ⟨p, hp, hpe⟩ := List.exists_of_findSome?_eq_some he
  have hpe2 : stdElemCheck (p.1, p.2, Label.str "sd") = some e := hpe
  rcases stdRow_mem (List.of_mem_zip hp).1 with ⟨q, hq⟩ | hnan
  · rw [hq, stdElemCheck_num] at hpe2
    by_cases hq0 : q = 0
    · subst hq0
      rw [if_pos rfl] at hpe2
      obtain rfl := (Option.some.injEq _ _).mp hpe2
      refine ⟨p.2, ?_, ?_⟩
      · have hpp : p = (Val.num 0, p.2) := by
          rw [← hq]
        rw [← hpp]
        exact hp
      · rw [validate_scores_eq, if_neg (by simp [isEmpty_false_of_ne_nil hc]),
          if_neg (by simp [isEmpty_false_of_ne_nil hr]),
          elemLoop_none hnum hcl hrl, hfind, he]
    · rw [if_neg hq0] at hpe2
      cases hpe2
  · rw [hnan, stdElemCheck_nan] at hpe2
    cases hpe2

/-- Witness for C5 at the spec example: rows A,B,C, columns exp1, exp2,
exp1 = [1,1,1] (zero variance), exp2 = [1,2,3]. -/
theorem validate_scores_zero_sd_witness :
    ((Matrix.mk [[Val.num 1, Val.num 1], [Val.num 1, Val.num 2], [Val.num 1, Val.num 3]]
      [Label.str "A", Label.str "B", Label.str "C"]
      [Label.str "exp1", Label.str "exp2"] "float64").cols_labels ≠ [] ∧
    (Matrix.mk [[Val.num 1, Val.num 1], [Val.num 1, Val.num 2], [Val.num 1, Val.num 3]]
      [Label.str "A", Label.str "B", Label.str "C"]
      [Label.str "exp1", Label.str "exp2"] "float64").rows_labels ≠ [] ∧
    (∃ p ∈ (stdRow (Matrix.mk [[Val.num 1, Val.num 1], [Val.num 1, Val.num 2], [Val.num 1, Val.num 3]]
      [Label.str "A", Label.str "B", Label.str "C"]
      [Label.str "exp1", Label.str "exp2"] "float64")).zip
        [Label.str "exp1", Label.str "exp2"], p.1 = Val.num 0)) ∧
    ∃ cl, (Val.num 0, cl) ∈ (stdRow (Matrix.mk [[Val.num 1, Val.num 1], [Val.num 1, Val.num 2], [Val.num 1, Val.num 3]]
      [Label.str "A", Label.str "B", Label.str "C"]
      [Label.str "exp1", Label.str "exp2"] "float64")).zip
        [Label.str "exp1", Label.str "exp2"] ∧
      validate_scores (Matrix.mk [[Val.num 1, Val.num 1], [Val.num 1, Val.num 2], [Val.num 1, Val.num 3]]
        [Label.str "A", Label.str "B", Label.str "C"]
        [Label.str "exp1", Label.str "exp2"] "float64") =
        .error (.valueError ("Standard deviation in background is 0 in column:" ++ cl.toStr)) := by
  have hstd : stdRow (Matrix.mk [[Val.num 1, Val.num 1], [Val.num 1, Val.num 2], [Val.num 1, Val.num 3]]
      [Label.str "A", Label.str "B", Label.str "C"]
      [Label.str "exp1", Label.str "exp2"] "float64") =
      [Val.num 0, Val.num (2/3)] := by
    norm_num +decide [stdRow, Matrix.nCols, List.range_succ, colAt, colStd, Val.isNum, Val.toQ,
      variance, List.filterMap_cons, List.getElem?_cons_zero, List.getElem?_cons_succ]
  have hzero : ∃ p ∈ (stdRow (Matrix.mk [[Val.num 1, Val.num 1], [Val.num 1, Val.num 2], [Val.num 1, Val.num 3]]
      [Label.str "A", Label.str "B", Label.str "C"]
      [Label.str "exp1", Label.str "exp2"] "float64")).zip
        [Label.str "exp1", Label.str "exp2"], p.1 = Val.num 0 := by
    refine ⟨(Val.num 0, Label.str "exp1"), ?_, rfl⟩
    rw [hstd]
    simp
  exact ⟨⟨by decide, by decide, hzero⟩,
    validate_scores_zero_sd _ (by decide) (by decide) (by decide) (by decide) (by decide) hzero⟩

/-- C8.  For every scores matrix with non-empty, non-missing labels,
fully numeric elements, and every entry of the standard-deviation row
(paired with its column label) a strictly positive number,
`validate_scores` completes without raising. -/
theorem validate_scores_ok (s : Matrix)
    (hc : s.cols_labels ≠ []) (hr : s.rows_labels ≠ [])
    (hnum : ∀ row ∈ s.mat, ∀ v ∈ row, v.isNum = true)
    (hcl : ∀ l ∈ s.cols_labels, l.missing = false)
    (hrl : ∀ l ∈ s.rows_labels, l.missing = false)
    (hstd : ∀ p ∈ (stdRow s).zip s.cols_labels, ∃ q, p.1 = Val.num q ∧ 0 < q) :
    validate_scores s = .ok () := by
  have hstdnone : (stdMat s).triples.findSome? stdElemCheck = none := by
    rw [stdMat_triples, List.findSome?_map, List.findSome?_eq_none_iff]
    intro p hp
    obtain ⟨q, hq, hqpos⟩ := hstd p hp
    show stdElemCheck (p.1, p.2, Label.str "sd") = none
    rw [hq, stdElemCheck_num, if_neg hqpos.ne']
  rw [validate_scores_eq, if_neg (by simp [isEmpty_false_of_ne_nil hc]),
    if_neg (by simp [isEmpty_false_of_ne_nil hr]),
    elemLoop_none hnum hcl hrl, hstdnone]

/-- Witness for C8 at a concrete 2 by 1 matrix with column values 1 and 2
(variance 1/4 > 0). -/
theorem validate_scores_ok_witness :
    ((Matrix.mk [[Val.num 1], [Val.num 2]]
      [Label.str "r1", Label.str "r2"] [Label.str "c1"] "float64").cols_labels ≠ [] ∧
    (∀ p ∈ (stdRow (Matrix.mk [[Val.num 1], [Val.num 2]]
      [Label.str "r1", Label.str "r2"] [Label.str "c1"] "float64")).zip
        [Label.str "c1"], ∃ q, p.1 = Val.num q ∧ 0 < q)) ∧
    validate_scores (Matrix.mk [[Val.num 1], [Val.num 2]]
      [Label.str "r1", Label.str "r2"] [Label.str "c1"] "float64") = .ok () := by
  have hstdrow : stdRow (Matrix.mk [[Val.num 1], [Val.num 2]]
      [Label.str "r1", Label.str "r2"] [Label.str "c1"] "float64") =
      [Val.num (1/4)] := by
    norm_num +decide [stdRow, Matrix.nCols, List.range_succ, colAt, colStd, Val.isNum, Val.toQ,
      variance, List.filterMap_cons, List.getElem?_cons_zero, List.getElem?_cons_succ]
  have hstd : ∀ p ∈ (stdRow (Matrix.mk [[Val.num 1], [Val.num 2]]
      [Label.str "r1", Label.str "r2"] [Label.str "c1"] "float64")).zip
        [Label.str "c1"], ∃ q, p.1 = Val.num q ∧ 0 < q := by
    rw [hstdrow]
    intro p hp
    simp only [List.zip_cons_cons, List.zip_nil_left, List.mem_singleton] at hp
    subst hp
    exact ⟨1/4, rfl, by norm_num⟩
  exact ⟨⟨by decide, hstd⟩,
    validate_scores_ok _ (by decide) (by decide) (by decide) (by decide) (by decide) hstd⟩

/-- C10 counterexample.  The claim says a single-row scores matrix that
passes the label, dtype and per-element checks ALWAYS raises.  The 1 by 1
matrix holding the floating NaN passes every one of those checks (NaN is
a float), its standard deviation is NaN rather than 0, and
`validate_scores` returns successfully. -/
theorem validate_scores_single_row_nan_passes :
    (Matrix.mk [[Val.nan]] [Label.str "r"] [Label.str "c"] "float64").triples.findSome?
      scoreElemCheck = none ∧
    validate_scores (Matrix.mk [[Val.nan]] [Label.str "r"] [Label.str "c"] "float64") =
      .ok () := by
  exact ⟨rfl, rfl⟩

/-- C10, amended.  For every well-formed scores matrix with exactly one
row whose cells are all finite numbers (no NaN) and whose labels are
present and non-missing, `validate_scores` raises: each column holds a
single value, so its standard deviation is exactly zero, and the failure
names the first column. -/
theorem validate_scores_single_row_raises (s : Matrix) (hwf : s.wf)
    (h1 : s.mat.length = 1)
    (hc : s.cols_labels ≠ []) (hr : s.rows_labels ≠ [])
    (hnum : ∀ row ∈ s.mat, ∀ v ∈ row, ∃ q, v = Val.num q)
    (hcl : ∀ l ∈ s.cols_labels, l.missing = false)
    (hrl : ∀ l ∈ s.rows_labels, l.missing = false) :
    validate_scores s =
      .error (.valueError ("Standard deviation in background is 0 in column:"
        ++ (s.cols_labels.headD Label.pyNone).toStr)) := by
  obtain ⟨row, hrow⟩ := List.length_eq_one.mp h1
  obtain ⟨cl, cls, hcls⟩ := List.exists_cons_of_ne_nil hc
  have hrowmem : row ∈ s.mat := by
    rw [hrow]
    exact List.mem_singleton.mpr rfl
  have hrowlen : row.length = s.cols_labels.length := hwf.2 row hrowmem
  have hrlen : 0 < row.length := by
    rw [hrowlen, hcls]
    simp
  obtain ⟨v, vs, hv⟩ := List.exists_cons_of_ne_nil (List.length_pos.mp hrlen)
  obtain ⟨q, hq⟩ := hnum row hrowmem v (by rw [hv]; exact List.mem_cons_self v vs)
  have hnc : s.nCols = row.length := by
    rw [Matrix.nCols, hrow]
    rfl
  have hcol0 : colStd (colAt s.mat 0) = Val.num 0 := by
    rw [hrow, hv]
    have hca : colAt [v :: vs] 0 = [v] := by simp [colAt]
    rw [hca, hq]
    simp [colStd, Val.isNum, Val.toQ, variance_singleton]
  have hstdRow : ∃ rest, stdRow s = Val.num 0 :: rest := by
    refine ⟨((List.range (row.length - 1)).map Nat.succ).map
      (fun j => colStd (colAt s.mat j)), ?_⟩
    unfold stdRow
    rw [hnc, hv, List.length_cons, List.range_succ_eq_map, List.map_cons, hcol0]
    rw [hv] at *
    simp
  obtain ⟨rest, hstd⟩ := hstdRow
  have hmsg : stdElemCheck ((Val.num 0 : Val), cl, Label.str "sd") =
      some (.valueError ("Standard deviation in background is 0 in column:" ++ cl.toStr)) := by
    rw [stdElemCheck_num, if_pos rfl]
  have hfind : (stdMat s).triples.findSome? stdElemCheck =
      some (.valueError ("Standard deviation in background is 0 in column:" ++ cl.toStr)) := by
    rw [stdMat_triples, List.findSome?_map, hstd, hcls]
    simp [List.zip_cons_cons, List.findSome?_cons, Function.comp, hmsg]
  have hnum2 : ∀ r ∈ s.mat, ∀ w ∈ r, w.isNum = true := by
    intro r hrm w hw
    obtain ⟨qq, rfl⟩ := hnum r hrm w hw
    rfl
  have hhead : s.cols_labels.headD Label.pyNone = cl := by
    rw [hcls]
    rfl
  rw [validate_scores_eq, if_neg (by simp [isEmpty_false_of_ne_nil hc]),
    if_neg (by simp [isEmpty_false_of_ne_nil hr]),
    elemLoop_none hnum2 hcl hrl, hfind, hhead]

/-- Witness for the amended C10 at the 1 by 1 matrix holding 5. -/
theorem validate_scores_single_row_raises_witness :
    ((Matrix.mk [[Val.num 5]] [Label.str "r"] [Label.str "c"] "float64").wf ∧
    (Matrix.mk [[Val.num 5]] [Label.str "r"] [Label.str "c"] "float64").mat.length = 1 ∧
    (∀ row ∈ (Matrix.mk [[Val.num 5]] [Label.str "r"] [Label.str "c"] "float64").mat,
      ∀ v ∈ row, ∃ q, v = Val.num q)) ∧
    validate_scores (Matrix.mk [[Val.num 5]] [Label.str "r"] [Label.str "c"] "float64") =
      .error (.valueError ("Standard deviation in background is 0 in column:"
        ++ ((Matrix.mk [[Val.num 5]] [Label.str "r"] [Label.str "c"]
          "float64").cols_labels.headD Label.pyNone).toStr)) := by
  have hnum : ∀ row ∈ (Matrix.mk [[Val.num 5]] [Label.str "r"] [Label.str "c"] "float64").mat,
      ∀ v ∈ row, ∃ q, v = Val.num q := by
    intro row hrow v hv
    simp only [List.mem_singleton] at hrow
    subst hrow
    simp only [List.mem_singleton] at hv
    subst hv
    exact ⟨5, rfl⟩
  exact ⟨⟨by decide, rfl, hnum⟩,
    validate_scores_single_row_raises _ (by decide) rfl (by decide) (by decide) hnum
      (by decide) (by decide)⟩

end DiffuPy
